import Mathlib

/-!
# Verification of the Deepgram Flux STT protocol client

Shallow embedding of `backend/flux_stt_service.py` (class
`DeepgramFluxSTTService`): JSON values as received from the wire, the
session configuration, the mutable session state, and the event handlers,
lifecycle operations and watchdog as pure state-transition functions that
also return the list of observable effects (callback invocations and
socket writes).  Python exceptions that the code does not catch are
modelled with `Except`; numbers are modelled as rationals.
-/

namespace NachosFlux

/-- JSON values, as produced by Python's json.loads: an object is a list of
string-keyed fields, numbers are modelled as rationals. -/
inductive JVal where
  | null
  | bool (b : Bool)
  | num (q : ℚ)
  | str (s : String)
  | arr (elems : List JVal)
  | obj (fields : List (String × JVal))

/-- Python dict.get on a JSON object: the value of the first field with the
given key, None when the value is not an object or the key is absent. -/
def JVal.get : JVal → String → Option JVal
  | .obj fields, k =>
    match fields.find? (fun f => f.1 == k) with
    | some f => some f.2
    | none => none
  | _, _ => none

/-- Python truthiness of a JSON value: None, False, 0, empty string, empty
list and empty object are falsy. -/
def pyTruthy : JVal → Bool
  | .null => false
  | .bool b => b
  | .num q => q != 0
  | .str s => s != ""
  | .arr elems => !elems.isEmpty
  | .obj fields => !fields.isEmpty

/-- A JSON value accepted by Python's isinstance(x, (float, int)): numbers,
and booleans (bool is a subclass of int, True counting as 1). -/
def numericValue : Option JVal → Option ℚ
  | some (.num q) => some q
  | some (.bool b) => some (if b then 1 else 0)
  | _ => none

/-- Configuration parameters for the Deepgram Flux API
(class FluxInputParams). -/
structure FluxInputParams where
  eager_eot_threshold : Option ℚ := none
  eot_threshold : Option ℚ := none
  eot_timeout_ms : Option Int := none
  keyterm : List String := []
  mip_opt_out : Option Bool := none
  tag : List String := []
  min_confidence : Option ℚ := none

/-- Immutable constructor arguments of DeepgramFluxSTTService. -/
structure ServiceConfig where
  api_key : String := "key"
  url : String := "wss://api.deepgram.com/v2/listen"
  sample_rate : Nat := 16000
  model : String := "flux-general-en"
  encoding : String := "linear16"
  params : FluxInputParams := {}

/-- Hex digit used by percent-encoding (urllib uses upper case). -/
def hexDigit (n : Nat) : Char :=
  if n < 10 then Char.ofNat (48 + n) else Char.ofNat (55 + n)

/-- Characters urllib.parse.quote_plus leaves unescaped: ASCII letters,
digits, and the characters underscore, dot, dash, tilde. -/
def quoteSafe (c : Char) : Bool :=
  c.isAlphanum || c = '_' || c = '.' || c = '-' || c = '~'

/-- urllib.parse.quote_plus on one UTF-8 byte that is not safe. -/
def percentByte (b : UInt8) : String :=
  String.mk ['%', hexDigit (b.toNat / 16), hexDigit (b.toNat % 16)]

/-- urllib.parse.quote_plus: spaces become plus signs, safe characters pass
through, everything else is percent-encoded byte by byte. -/
def quotePlus (s : String) : String :=
  s.data.foldl
    (fun acc c =>
      if c = ' ' then acc ++ "+"
      else if quoteSafe c then acc.push c
      else acc ++ String.join ((String.singleton c).toUTF8.toList.map percentByte))
    ""

/-- urllib.parse.urlencode on a single key/value pair, as used for the
keyterm and tag parameters. -/
def urlencodePair (k v : String) : String :=
  quotePlus k ++ "=" ++ quotePlus v

/-- Python str() of a rational standing in for a float. Only used for the
optional threshold parameters; no verified property depends on the exact
digits Python would print. -/
def floatStr (q : ℚ) : String := toString q

/-- Python str() of an int. -/
def intStr (i : Int) : String := toString i

/-- Python str(bool).lower(). -/
def boolLower (b : Bool) : String := if b then "true" else "false"

/-- The query parameters built by _build_websocket_url, in order: the three
required parameters, then each optional parameter when set, then one entry
per keyterm and per tag. -/
def build_url_params (c : ServiceConfig) : List String :=
  [ "model=" ++ c.model,
    "sample_rate=" ++ toString c.sample_rate,
    "encoding=" ++ c.encoding ]
  ++ (match c.params.eager_eot_threshold with
      | some t => ["eager_eot_threshold=" ++ floatStr t]
      | none => [])
  ++ (match c.params.eot_threshold with
      | some t => ["eot_threshold=" ++ floatStr t]
      | none => [])
  ++ (match c.params.eot_timeout_ms with
      | some t => ["eot_timeout_ms=" ++ intStr t]
      | none => [])
  ++ (match c.params.mip_opt_out with
      | some b => ["mip_opt_out=" ++ boolLower b]
      | none => [])
  ++ c.params.keyterm.map (fun k => urlencodePair "keyterm" k)
  ++ c.params.tag.map (fun t => urlencodePair "tag" t)

/-- _build_websocket_url: base URL, a question mark, and the parameters
joined with ampersands. -/
def build_websocket_url (c : ServiceConfig) : String :=
  c.url ++ "?" ++ String.intercalate "&" (build_url_params c)

/-- State of the owned WebSocket handle: self._websocket is None, or a
socket whose .state is OPEN, or a socket in some other state (closed by
the server, closing, or never acknowledged). -/
inductive WsState where
  | absent
  | opened
  | closed
deriving Repr, DecidableEq

/-- The mutable per-session fields of DeepgramFluxSTTService.  Background
tasks are modelled by whether a live task handle is stored. -/
structure SessionState where
  websocket : WsState := .absent
  websocket_url : Option String := none
  receive_task : Bool := false
  watchdog_task : Bool := false
  connection_established : Bool := false
  user_is_speaking : Bool := false
  last_audio_time : Option ℚ := none
deriving Repr, DecidableEq

/-- Which optional callback attributes the caller has set. -/
structure CallbackSet where
  on_connected : Bool := true
  on_disconnected : Bool := true
  on_start_of_turn : Bool := true
  on_end_of_turn : Bool := true
  on_eager_end_of_turn : Bool := true
  on_update : Bool := true
  on_turn_resumed : Bool := true
  on_error : Bool := true
deriving Repr, DecidableEq

/-- Observable effects: caller callbacks that were awaited, and frames
written to the socket. -/
inductive Output where
  | connectedCb
  | disconnectedCb
  | startOfTurnCb (transcript : JVal)
  | endOfTurnCb (transcript : JVal) (data : JVal)
  | eagerEndOfTurnCb (transcript : JVal) (data : JVal)
  | updateCb (transcript : JVal)
  | turnResumedCb
  | errorCb (msg : String)
  | audioFrame (nbytes : Nat)
  | silenceFrame (nbytes : Nat)
  | closeStreamFrame

/-- is_connected property: socket present and in the OPEN state. -/
def is_connected (s : SessionState) : Bool :=
  s.websocket = .opened

/-- Result of a handler that may let a Python exception escape: the state
reached (assignments before the raise persist) and either the outputs or
the escaped exception. -/
abbrev HResult := SessionState × Except Unit (List Output)

/-- The list comprehension in _calculate_average_confidence: w.get on each
entry raises AttributeError when the entry is not a dict; entries whose
confidence is not numeric are dropped. -/
def collectConfidences : List JVal → Except Unit (List ℚ)
  | [] => .ok []
  | w :: ws =>
    match w with
    | .obj fields => do
        let rest ← collectConfidences ws
        match numericValue ((JVal.obj fields).get "confidence") with
        | some q => .ok (q :: rest)
        | none => .ok rest
    | _ => .error ()

/-- _calculate_average_confidence: None when the words field is absent,
falsy, or not a list; otherwise the mean of the numeric per-word
confidences, None when there are none. -/
def calculate_average_confidence (data : JVal) : Except Unit (Option ℚ) :=
  match data.get "words" with
  | none => .ok none
  | some w =>
    if !pyTruthy w then .ok none
    else
      match w with
      | .arr ws => do
          let cs ← collectConfidences ws
          if cs.isEmpty then .ok none
          else .ok (some (cs.sum / (cs.length : ℚ)))
      | _ => .ok none

/-- _handle_start_of_turn: set the turn flag, then invoke the
start-of-turn callback if set (callback exceptions are caught). -/
def handle_start_of_turn (cbs : CallbackSet) (s : SessionState)
    (transcript : JVal) : SessionState × List Output :=
  ({s with user_is_speaking := true},
   if cbs.on_start_of_turn then [.startOfTurnCb transcript] else [])

/-- _handle_turn_resumed: invoke the turn-resumed callback if set. -/
def handle_turn_resumed (cbs : CallbackSet) (s : SessionState) :
    SessionState × List Output :=
  (s, if cbs.on_turn_resumed then [.turnResumedCb] else [])

/-- _handle_update: invoke the update callback when the transcript is
truthy and the callback is set; the state is unchanged. -/
def handle_update (cbs : CallbackSet) (s : SessionState)
    (transcript : JVal) : SessionState × List Output :=
  (s, if pyTruthy transcript && cbs.on_update then [.updateCb transcript] else [])

/-- _handle_end_of_turn: clear the turn flag; when min_confidence is truthy
(set and nonzero) compute the average confidence and silently drop the
event when it exists and is below threshold; otherwise invoke the
end-of-turn callback.  An exception from the confidence computation
escapes after the flag was already cleared. -/
def handle_end_of_turn (c : ServiceConfig) (cbs : CallbackSet)
    (s : SessionState) (transcript data : JVal) : HResult :=
  let s1 := {s with user_is_speaking := false}
  let emit : Except Unit (List Output) :=
    .ok (if cbs.on_end_of_turn then [.endOfTurnCb transcript data] else [])
  match c.params.min_confidence with
  | some mc =>
    if mc ≠ 0 then
      match calculate_average_confidence data with
      | .error e => (s1, .error e)
      | .ok (some avg) => if avg < mc then (s1, .ok []) else (s1, emit)
      | .ok none => (s1, emit)
    else (s1, emit)
  | none => (s1, emit)

/-- Python len() of a JSON value: defined for strings, lists and dicts,
a TypeError otherwise. -/
def pyLen : JVal → Option Nat
  | .str s => some s.length
  | .arr elems => some elems.length
  | .obj fields => some fields.length
  | _ => none

/-- Values Python can slice with transcript[:80]: strings and lists. -/
def pySliceable : JVal → Bool
  | .str _ => true
  | .arr _ => true
  | _ => false

/-- _handle_eager_end_of_turn: the debug log evaluates len(transcript)
(TypeError unless sized) and slices it when longer than 80; then the
eager-end-of-turn callback is invoked unconditionally. -/
def handle_eager_end_of_turn (cbs : CallbackSet) (s : SessionState)
    (transcript data : JVal) : HResult :=
  match pyLen transcript with
  | none => (s, .error ())
  | some n =>
    if n > 80 && !pySliceable transcript then (s, .error ())
    else (s, .ok (if cbs.on_eager_end_of_turn then [.eagerEndOfTurnCb transcript data] else []))

/-- _handle_turn_info: read the event field and the transcript (defaulting
to the empty string), dispatch on the event name; unknown or non-string
events are ignored. -/
def handle_turn_info (c : ServiceConfig) (cbs : CallbackSet)
    (s : SessionState) (data : JVal) : HResult :=
  let transcript := (data.get "transcript").getD (.str "")
  match data.get "event" with
  | some (.str e) =>
    if e = "StartOfTurn" then
      let r := handle_start_of_turn cbs s transcript
      (r.1, .ok r.2)
    else if e = "TurnResumed" then
      let r := handle_turn_resumed cbs s
      (r.1, .ok r.2)
    else if e = "EndOfTurn" then handle_end_of_turn c cbs s transcript data
    else if e = "EagerEndOfTurn" then handle_eager_end_of_turn cbs s transcript data
    else if e = "Update" then
      let r := handle_update cbs s transcript
      (r.1, .ok r.2)
    else (s, .ok [])
  | _ => (s, .ok [])

/-- _handle_message: ignore values that are not objects or lack a type
field; dispatch Connected, Error and TurnInfo; other type values (or
non-string ones, which make the enum constructor raise ValueError, caught)
are ignored. -/
def handle_message (c : ServiceConfig) (cbs : CallbackSet)
    (s : SessionState) (data : JVal) : HResult :=
  match data with
  | .obj _ =>
    match data.get "type" with
    | some (.str t) =>
      if t = "Connected" then ({s with connection_established := true}, .ok [])
      else if t = "Error" then
        (s, .ok (if cbs.on_error then [.errorCb "Fatal error"] else []))
      else if t = "TurnInfo" then handle_turn_info c cbs s data
      else (s, .ok [])
    | some _ => (s, .ok [])
    | none => (s, .ok [])
  | _ => (s, .ok [])

/-- One inbound WebSocket frame as seen by _receive_messages: a binary
frame, or a text frame together with the result of json.loads on it
(none models a JSONDecodeError). -/
inductive InboundFrame where
  | binaryFrame (nbytes : Nat)
  | textFrame (decoded : Option JVal)

/-- One iteration of the async-for body of _receive_messages: binary frames
and undecodable text are logged and skipped; an exception escaping
_handle_message is caught by the outer handler, which reports it through
the error callback and ends the loop (the Bool is whether the loop goes
on). -/
def receive_step (c : ServiceConfig) (cbs : CallbackSet) (s : SessionState)
    (f : InboundFrame) : SessionState × List Output × Bool :=
  match f with
  | .binaryFrame _ => (s, [], true)
  | .textFrame none => (s, [], true)
  | .textFrame (some v) =>
    match handle_message c cbs s v with
    | (s1, .ok outs) => (s1, outs, true)
    | (s1, .error _) =>
      (s1, (if cbs.on_error then [.errorCb "WebSocket receive error"] else []), false)

/-- _receive_messages over a finite list of inbound frames: frames after a
loop-ending exception are not processed. -/
def receive_loop (c : ServiceConfig) (cbs : CallbackSet) :
    SessionState → List InboundFrame → SessionState × List Output
  | s, [] => (s, [])
  | s, f :: fs =>
    match receive_step c cbs s f with
    | (s1, outs, true) =>
      let r := receive_loop c cbs s1 fs
      (r.1, outs ++ r.2)
    | (s1, outs, false) => (s1, outs)

/-- The except-branch of _receive_messages when the socket recv itself
raises (server-side close, network error): the error is logged and
reported through the error callback, the loop exits, and no session field
is reset. -/
def receive_error_exit (cbs : CallbackSet) (s : SessionState) :
    SessionState × List Output :=
  (s, if cbs.on_error then [.errorCb "WebSocket receive error"] else [])

/-- Environment action, not code of the service: the server or network
closes the underlying socket, so its .state is no longer OPEN. -/
def server_closes_socket (s : SessionState) : SessionState :=
  {s with websocket := .closed}

/-- _disconnect_websocket: cancel both tasks, clear the pending-connect
event, send CloseStream (only possible while the socket is open) and close
the socket; the finally block always clears the handle, the turn flag and
the timestamp and always invokes the disconnected callback. -/
def disconnect_websocket (cbs : CallbackSet) (s : SessionState) :
    SessionState × List Output :=
  ({ s with websocket := .absent, receive_task := false, watchdog_task := false,
            connection_established := false, user_is_speaking := false,
            last_audio_time := none },
   (if s.websocket = .opened then [.closeStreamFrame] else [])
   ++ (if cbs.on_disconnected then [.disconnectedCb] else []))

/-- stop(): gracefully disconnect. -/
def stop (cbs : CallbackSet) (s : SessionState) : SessionState × List Output :=
  disconnect_websocket cbs s

/-- How the environment resolves one connection attempt: the socket open
raises, the socket opens but no Connected message arrives within the 10 s
wait, or the handshake completes. -/
inductive ConnectOutcome where
  | openFailed
  | ackTimeout
  | ackOk

/-- _connect_websocket: no-op when already open; otherwise clear the event
and the turn flag, open the socket and spawn both tasks, then wait for the
Connected message.  The Option String is the message of an exception the
function lets escape (caught by start). -/
def connect_websocket (_c : ServiceConfig) (cbs : CallbackSet)
    (s : SessionState) (o : ConnectOutcome) :
    SessionState × List Output × Option String :=
  if s.websocket = .opened then (s, [], none)
  else
    let s1 := {s with connection_established := false, user_is_speaking := false}
    match o with
    | .openFailed => ({s1 with websocket := .absent}, [], some "socket open failed")
    | .ackTimeout =>
      let s2 := {s1 with websocket := .opened, receive_task := true, watchdog_task := true}
      let r := disconnect_websocket cbs s2
      (r.1, r.2, some "Connection timeout")
    | .ackOk =>
      let s2 := {s1 with websocket := .opened, receive_task := true,
                         watchdog_task := true, connection_established := true}
      (s2, if cbs.on_connected then [.connectedCb] else [], none)

/-- start(): build the URL, connect; any exception is caught, reported
through the error callback and turned into the return value False. -/
def start (c : ServiceConfig) (cbs : CallbackSet) (s : SessionState)
    (o : ConnectOutcome) : SessionState × List Output × Bool :=
  let s0 := {s with websocket_url := some (build_websocket_url c)}
  match connect_websocket c cbs s0 o with
  | (s1, outs, none) => (s1, outs, true)
  | (s1, outs, some msg) =>
    (s1, outs ++ (if cbs.on_error then [.errorCb ("Failed to start: " ++ msg)] else []),
     false)

/-- send_audio: warn and return when the socket is not open; otherwise set
the last-audio timestamp to the current monotonic time and then attempt
the socket write (sendOk says whether it raises); a failure is reported
through the error callback. -/
def send_audio (cbs : CallbackSet) (s : SessionState) (nbytes : Nat)
    (now : ℚ) (sendOk : Bool) : SessionState × List Output :=
  if s.websocket ≠ .opened then (s, [])
  else
    let s1 := {s with last_audio_time := some now}
    if sendOk then (s1, [.audioFrame nbytes])
    else (s1, if cbs.on_error then [.errorCb "Error sending audio"] else [])

/-- Size in bytes of the silence block _send_silence builds:
int(sample_rate * duration) samples of 16-bit mono PCM. -/
def silence_bytes (c : ServiceConfig) (duration_secs : ℚ) : Nat :=
  (Int.toNat ⌊(c.sample_rate : ℚ) * duration_secs⌋) * 2 * 1

/-- _send_silence: write a block of zero bytes when the socket is open
(send errors are only logged); no session field changes. -/
def send_silence (c : ServiceConfig) (s : SessionState)
    (duration_secs : ℚ) : List Output :=
  if s.websocket = .opened then [.silenceFrame (silence_bytes c duration_secs)] else []

/-- The condition of _watchdog_handler's tick: mid-turn, a truthy (set and
nonzero) last-audio time, and more than half a second elapsed. -/
def watchdog_should_send (s : SessionState) (now : ℚ) : Bool :=
  s.user_is_speaking &&
    (match s.last_audio_time with
     | some t => (t != 0) && decide (now - t > 1/2)
     | none => false)

/-- One iteration of _watchdog_handler's while loop (which runs only while
the socket is open): send 0.5 s of silence and refresh the timestamp with
a fresh monotonic reading now2 when the condition holds. -/
def watchdog_tick (c : ServiceConfig) (s : SessionState) (now now2 : ℚ) :
    SessionState × List Output :=
  if s.websocket = .opened then
    if watchdog_should_send s now then
      ({s with last_audio_time := some now2}, send_silence c s (1/2))
    else (s, [])
  else (s, [])

/-- Whether a JSON value is an object. -/
def JVal.isObj : JVal → Bool
  | .obj _ => true
  | _ => false

/-- Whether a JSON value is an array. -/
def JVal.isArr : JVal → Bool
  | .arr _ => true
  | _ => false

/-- The numeric confidences of a list of word objects, in order; entries
whose confidence is absent or not numeric contribute nothing. -/
def word_confidences (ws : List JVal) : List ℚ :=
  ws.filterMap (fun w => numericValue (w.get "confidence"))

/-- The Turn State Machine run over a block of Update events. -/
def run_updates (cbs : CallbackSet) (s : SessionState) (ts : List JVal) : SessionState :=
  ts.foldl (fun st t => (handle_update cbs st t).1) s

/-- Number of disconnected-callback invocations in an output trace. -/
def countDisconnects : List Output → Nat
  | [] => 0
  | .disconnectedCb :: rest => 1 + countDisconnects rest
  | _ :: rest => countDisconnects rest

/-- Whether an output trace contains a synthetic-silence socket write. -/
def hasSilence : List Output → Bool
  | [] => false
  | .silenceFrame _ :: _ => true
  | _ :: rest => hasSilence rest

/-- A valid TurnInfo StartOfTurn wire message. -/
def startOfTurnMsg : JVal :=
  .obj [("type", .str "TurnInfo"), ("event", .str "StartOfTurn"), ("transcript", .str "hi")]

/-- An EndOfTurn wire message whose only word has confidence -1, so the
mean confidence is -1. -/
def negConfMsg : JVal :=
  .obj [("type", .str "TurnInfo"), ("event", .str "EndOfTurn"), ("transcript", .str "hello"),
        ("words", .arr [.obj [("confidence", .num (-1))]])]

/-- A configuration whose minimum-confidence threshold is set to 0.0 —
set, but falsy in Python. -/
def zeroMinConfCfg : ServiceConfig :=
  { params := { min_confidence := some 0 } }

/-- An EndOfTurn wire message whose words list contains a bare number
instead of a word object. -/
def nonObjWordMsg : JVal :=
  .obj [("type", .str "TurnInfo"), ("event", .str "EndOfTurn"), ("transcript", .str "x"),
        ("words", .arr [.num 5])]

/-- A configuration with a nonzero minimum-confidence threshold. -/
def halfMinConfCfg : ServiceConfig :=
  { params := { min_confidence := some (1/2) } }

/-- A configuration whose minimum-confidence threshold is the integral
rational 2. -/
def twoMinConfCfg : ServiceConfig :=
  { params := { min_confidence := some 2 } }

/-- The session state reached by: successful start, StartOfTurn received,
the server closes the socket, and the receive loop exits through its
error branch — stop() never called. -/
def lostSocketMidTurn : SessionState :=
  let s1 := (start {} {} {} .ackOk).1
  let s2 := (receive_loop {} {} s1 [.textFrame (some startOfTurnMsg)]).1
  (receive_error_exit {} (server_closes_socket s2)).1

/-- An EndOfTurn wire message whose single word has confidence 0.7. -/
def highConfMsg : JVal :=
  .obj [("type", .str "TurnInfo"), ("event", .str "EndOfTurn"), ("transcript", .str "hi"),
        ("words", .arr [.obj [("confidence", .num (7/10))]])]

/-- An EndOfTurn wire message whose words are objects but none carries a
numeric confidence. -/
def noNumericConfMsg : JVal :=
  .obj [("type", .str "TurnInfo"), ("event", .str "EndOfTurn"), ("transcript", .str "x"),
        ("words", .arr [.obj [("confidence", .str "NA")], .obj []])]

/-- The session state right after a successful start(). -/
def startedState : SessionState := (start {} {} {} .ackOk).1

/-- An open mid-turn session whose last-audio timestamp is the monotonic
reading 0.0 — a set timestamp that is falsy in Python. -/
def zeroTimeWatchState : SessionState :=
  { websocket := .opened, user_is_speaking := true, last_audio_time := some 0 }

/-- An open mid-turn session that last sent audio at monotonic time 1. -/
def idleMidTurnState : SessionState :=
  { websocket := .opened, user_is_speaking := true, last_audio_time := some 1 }

/-- Helper: a block of Update events leaves the whole session state
unchanged (the update handler only invokes the callback). -/
theorem run_updates_eq (cbs : CallbackSet) :
    ∀ (ts : List JVal) (s : SessionState), run_updates cbs s ts = s := by
  intro ts
  induction ts with
  | nil => intro s; rfl
  | cons t ts ih => intro s; exact ih s

/-- Helper: every branch of the end-of-turn handler returns a state whose
turn flag is cleared. -/
theorem handle_end_of_turn_flag (c : ServiceConfig) (cbs : CallbackSet)
    (s : SessionState) (t d : JVal) :
    (handle_end_of_turn c cbs s t d).1.user_is_speaking = false := by
  unfold handle_end_of_turn
  cases c.params.min_confidence with
  | none => rfl
  | some mc =>
    dsimp only
    split
    · cases hc : calculate_average_confidence d with
      | error e => simp [hc]
      | ok o =>
        cases o with
        | none => simp [hc]
        | some avg => simp only [hc]; split <;> rfl
    · rfl

/-- C1: processing StartOfTurn, then any number of Updates, then EndOfTurn
from a state whose turn flag is false: the flag is false before
StartOfTurn, true from the completion of StartOfTurn handling through
every Update, false after EndOfTurn, and Update handling never changes
the session state at all. -/
theorem c1_turn_flag_lifecycle (c : ServiceConfig) (cbs : CallbackSet)
    (s : SessionState) (h : s.user_is_speaking = false)
    (t tEnd dEnd : JVal) (ups : List JVal) :
    s.user_is_speaking = false ∧
    (handle_start_of_turn cbs s t).1.user_is_speaking = true ∧
    (∀ ts : List JVal,
      (run_updates cbs (handle_start_of_turn cbs s t).1 ts).user_is_speaking = true) ∧
    (∀ (st : SessionState) (tr : JVal), (handle_update cbs st tr).1 = st) ∧
    (handle_end_of_turn c cbs (run_updates cbs (handle_start_of_turn cbs s t).1 ups)
      tEnd dEnd).1.user_is_speaking = false := by
  refine ⟨h, rfl, ?_, fun st tr => rfl, ?_⟩
  · intro ts; rw [run_updates_eq]; rfl
  · exact handle_end_of_turn_flag ..

/-- C1 witness at a concrete input. -/
theorem c1_turn_flag_lifecycle_witness :
    ({} : SessionState).user_is_speaking = false ∧
    (handle_start_of_turn {} {} (.str "a")).1.user_is_speaking = true ∧
    (handle_end_of_turn {} {} (run_updates {} (handle_start_of_turn {} {} (.str "a")).1
      [.str "one", .str "two"]) (.str "b") (.obj [])).1.user_is_speaking = false := by
  have h := c1_turn_flag_lifecycle {} {} {} rfl (.str "a") (.str "b") (.obj [])
    [.str "one", .str "two"]
  exact ⟨h.1, h.2.1, h.2.2.2.2⟩

/-- C8: with the default configuration (sample_rate 16000, linear16,
flux-general-en, no optional parameters), the URL query string consists
of exactly the three required parameters. -/
theorem c8_default_url :
    build_url_params {} = ["model=flux-general-en", "sample_rate=16000", "encoding=linear16"] ∧
    build_websocket_url {} =
      "wss://api.deepgram.com/v2/listen?model=flux-general-en&sample_rate=16000&encoding=linear16" := by
  exact ⟨rfl, rfl⟩

/-- C2 counterexample: with min_confidence configured as 0.0 the threshold
check is skipped (Python truthiness of 0.0), so an EndOfTurn whose mean
word confidence -1 is strictly below the threshold still invokes the
end-of-turn callback. -/
theorem c2_zero_threshold_counterexample :
    zeroMinConfCfg.params.min_confidence = some 0 ∧
    calculate_average_confidence negConfMsg = .ok (some (-1)) ∧
    ((-1 : ℚ) < 0) ∧
    (handle_end_of_turn zeroMinConfCfg {} {} (.str "hello") negConfMsg).2 =
      .ok [.endOfTurnCb (.str "hello") negConfMsg] := by
  have hcalc : calculate_average_confidence negConfMsg =
      .ok (some (List.sum [(-1 : ℚ)] / ((List.length [(-1 : ℚ)] : Nat) : ℚ))) := rfl
  refine ⟨rfl, ?_, by norm_num, rfl⟩
  rw [hcalc]; norm_num

/-- C2 amended: while a nonzero minimum-confidence threshold is configured
and the end-of-turn callback is set, an EndOfTurn whose computed mean
confidence is strictly below the threshold invokes no callback, and one
whose mean is at/above it, or whose mean is absent, invokes the
end-of-turn callback with the transcript and raw payload. -/
theorem c2_confidence_gate (c : ServiceConfig) (cbs : CallbackSet)
    (s : SessionState) (t d : JVal) (mc : ℚ)
    (hmc : c.params.min_confidence = some mc) (hnz : mc ≠ 0)
    (hcb : cbs.on_end_of_turn = true) :
    (∀ avg : ℚ, calculate_average_confidence d = .ok (some avg) →
      ((avg < mc → (handle_end_of_turn c cbs s t d).2 = .ok []) ∧
       (mc ≤ avg → (handle_end_of_turn c cbs s t d).2 = .ok [.endOfTurnCb t d]))) ∧
    (calculate_average_confidence d = .ok none →
      (handle_end_of_turn c cbs s t d).2 = .ok [.endOfTurnCb t d]) := by
  unfold handle_end_of_turn
  rw [hmc]
  dsimp only
  rw [if_pos hnz]
  refine ⟨fun avg ha => ?_, fun ha => ?_⟩
  · rw [ha]
    refine ⟨fun hlt => ?_, fun hge => ?_⟩
    · simp [hlt]
    · simp [not_lt.mpr hge, hcb]
  · rw [ha]
    simp [hcb]

/-- C2 witness at a concrete input. -/
theorem c2_confidence_gate_witness :
    halfMinConfCfg.params.min_confidence = some (1/2) ∧ ((1 : ℚ)/2 ≠ 0) ∧
    ({} : CallbackSet).on_end_of_turn = true ∧
    calculate_average_confidence highConfMsg = .ok (some (7/10)) ∧
    (handle_end_of_turn halfMinConfCfg {} {} (.str "hi") highConfMsg).2 =
      .ok [.endOfTurnCb (.str "hi") highConfMsg] := by
  have hcalc : calculate_average_confidence highConfMsg = .ok (some (7/10)) := by
    have h : calculate_average_confidence highConfMsg =
        .ok (some (List.sum [(7 : ℚ)/10] / ((List.length [(7 : ℚ)/10] : Nat) : ℚ))) := rfl
    rw [h]; norm_num
  refine ⟨rfl, by norm_num, rfl, hcalc, ?_⟩
  exact ((c2_confidence_gate halfMinConfCfg {} {} (.str "hi") highConfMsg (1/2)
    rfl (by norm_num) rfl).1 (7/10) hcalc).2 (by norm_num)

/-- Helper: when every entry of the words list is an object, the
comprehension succeeds and collects exactly the numeric confidences. -/
theorem collectConfidences_all_obj :
    ∀ ws : List JVal, (∀ w ∈ ws, w.isObj = true) →
      collectConfidences ws = .ok (word_confidences ws) := by
  intro ws
  induction ws with
  | nil => intro _; rfl
  | cons w ws ih =>
    intro h
    have hw := h w (List.mem_cons_self ..)
    have hrest := ih (fun x hx => h x (List.mem_cons_of_mem _ hx))
    cases w with
    | obj fields =>
      simp only [collectConfidences, hrest, Except.bind, word_confidences, List.filterMap]
      cases numericValue ((JVal.obj fields).get "confidence") <;>
        simp [word_confidences, Bind.bind, Except.bind]
    | null => simp [JVal.isObj] at hw
    | bool b => simp [JVal.isObj] at hw
    | num q => simp [JVal.isObj] at hw
    | str s => simp [JVal.isObj] at hw
    | arr elems => simp [JVal.isObj] at hw

/-- C10 counterexample: a words list containing a bare number has no entry
with a numeric confidence, yet with a configured threshold the handler
does not invoke the callback — the per-entry w.get raises AttributeError,
which escapes and ends the receive loop with an error-callback report. -/
theorem c10_non_object_word_counterexample :
    twoMinConfCfg.params.min_confidence = some 2 ∧
    calculate_average_confidence nonObjWordMsg = .error () ∧
    (handle_end_of_turn twoMinConfCfg {} {} (.str "x") nonObjWordMsg).2 = .error () ∧
    receive_step twoMinConfCfg {} {} (.textFrame (some nonObjWordMsg)) =
      ({}, [.errorCb "WebSocket receive error"], false) := by
  exact ⟨rfl, rfl, rfl, rfl⟩

/-- C10 amended: for an EndOfTurn whose words field is missing, falsy, not
a list, or a list of objects, the computed average is the mean of the
numeric confidences (entries without one are excluded), it is absent when
there are none, and an absent average invokes the end-of-turn callback
whatever the threshold; a words list with a non-object entry instead
raises. -/
theorem c10_confidence_fallback (c : ServiceConfig) (cbs : CallbackSet)
    (s : SessionState) (t d : JVal) (hcb : cbs.on_end_of_turn = true) :
    (calculate_average_confidence d = .ok none →
      (handle_end_of_turn c cbs s t d).2 = .ok [.endOfTurnCb t d]) ∧
    (d.get "words" = none → calculate_average_confidence d = .ok none) ∧
    (∀ w, d.get "words" = some w → pyTruthy w = false →
      calculate_average_confidence d = .ok none) ∧
    (∀ w, d.get "words" = some w → pyTruthy w = true → w.isArr = false →
      calculate_average_confidence d = .ok none) ∧
    (∀ ws : List JVal, d.get "words" = some (.arr ws) → (∀ w ∈ ws, w.isObj = true) →
      calculate_average_confidence d =
        .ok (if word_confidences ws = [] then none
             else some ((word_confidences ws).sum / ((word_confidences ws).length : ℚ)))) := by
  refine ⟨?_, ?_, ?_, ?_, ?_⟩
  · intro hnone
    unfold handle_end_of_turn
    cases c.params.min_confidence with
    | none => simp [hcb]
    | some mc =>
      dsimp only
      by_cases hz : mc ≠ 0
      · rw [if_pos hz, hnone]
        simp [hcb]
      · rw [if_neg hz]
        simp [hcb]
  · intro h
    unfold calculate_average_confidence
    rw [h]
  · intro w h hf
    unfold calculate_average_confidence
    rw [h]
    dsimp only
    simp [hf]
  · intro w h ht harr
    unfold calculate_average_confidence
    rw [h]
    dsimp only
    cases w with
    | arr elems => simp [JVal.isArr] at harr
    | null => rfl
    | bool b => simp [ht]
    | num q => simp [ht]
    | str sx => simp [ht]
    | obj fields => simp [ht]
  · intro ws h hobj
    unfold calculate_average_confidence
    rw [h]
    dsimp only
    cases ws with
    | nil => simp [pyTruthy, word_confidences]
    | cons w ws0 =>
      rw [collectConfidences_all_obj _ hobj]
      simp only [pyTruthy, List.isEmpty_cons, Bool.not_false, if_true,
        Bind.bind, Except.bind]
      by_cases he : word_confidences (w :: ws0) = []
      · simp [he]
      · simp [he, List.isEmpty_iff]

/-- C10 witness at a concrete input: word objects with no numeric
confidence yield an absent average, and the callback fires despite the
configured threshold. -/
theorem c10_confidence_fallback_witness :
    ({} : CallbackSet).on_end_of_turn = true ∧
    calculate_average_confidence noNumericConfMsg = .ok none ∧
    (handle_end_of_turn halfMinConfCfg {} {} (.str "x") noNumericConfMsg).2 =
      .ok [.endOfTurnCb (.str "x") noNumericConfMsg] := by
  have h := c10_confidence_fallback halfMinConfCfg {} {} (.str "x") noNumericConfMsg rfl
  exact ⟨rfl, rfl, h.1 rfl⟩

/-- C3 counterexample: _disconnect_websocket's finally block invokes the
disconnected callback on every call, so stop() twice after a successful
start fires it twice, not at most once. -/
theorem c3_double_stop_counterexample :
    countDisconnects ((stop {} startedState).2 ++ (stop {} (stop {} startedState).1).2) = 2 ∧
    ¬ countDisconnects ((stop {} startedState).2 ++ (stop {} (stop {} startedState).1).2) ≤ 1 := by
  exact ⟨rfl, by decide⟩

/-- C3 amended: stop() twice in a row raises no error, each call fires the
disconnected callback exactly once (twice for the pair) when it is set,
the second call does not change the state further, and the per-connection
state is reset. -/
theorem c3_stop_idempotent_state (cbs : CallbackSet) (s : SessionState)
    (h : cbs.on_disconnected = true) :
    countDisconnects (stop cbs s).2 = 1 ∧
    countDisconnects (stop cbs (stop cbs s).1).2 = 1 ∧
    (stop cbs (stop cbs s).1).1 = (stop cbs s).1 ∧
    (stop cbs s).1.user_is_speaking = false ∧
    (stop cbs s).1.last_audio_time = none ∧
    (stop cbs s).1.websocket = .absent := by
  unfold stop disconnect_websocket
  cases hw : s.websocket <;> simp [h, countDisconnects]

/-- C3 witness at a concrete input. -/
theorem c3_stop_idempotent_state_witness :
    ({} : CallbackSet).on_disconnected = true ∧
    countDisconnects (stop {} startedState).2 = 1 ∧
    countDisconnects (stop {} (stop {} startedState).1).2 = 1 ∧
    (stop {} (stop {} startedState).1).1 = (stop {} startedState).1 := by
  have h := c3_stop_idempotent_state {} startedState rfl
  exact ⟨rfl, h.1, h.2.1, h.2.2.1⟩

/-- C4: after a successful start, a StartOfTurn, a server-side socket loss
and the receive loop's error exit — with stop() never called — the
connection is no longer Open yet the turn flag is still true, violating
the claimed invariant.  The receive loop's error branch reports the error
but resets nothing. -/
theorem c4_socket_loss_leaves_turn_flag :
    is_connected lostSocketMidTurn = false ∧
    lostSocketMidTurn.user_is_speaking = true ∧
    lostSocketMidTurn.websocket = .closed ∧
    (∀ cbs s, (receive_error_exit cbs s).1 = s) := by
  exact ⟨rfl, rfl, rfl, fun cbs s => rfl⟩

/-- C5: when the socket opens but no Connected message arrives within the
10 s wait, start() tears the connection down (socket handle cleared, both
tasks cancelled, turn flag false), invokes the error callback and returns
False; when the socket fails to open it likewise returns False and
invokes the error callback.  start never lets an exception escape: it is
a total function into SessionState, outputs and a Bool. -/
theorem c5_start_timeout_fails (c : ServiceConfig) (cbs : CallbackSet)
    (s : SessionState) (hcb : cbs.on_error = true) (hnot : s.websocket ≠ .opened) :
    (start c cbs s .ackTimeout).2.2 = false ∧
    Output.errorCb "Failed to start: Connection timeout" ∈ (start c cbs s .ackTimeout).2.1 ∧
    (start c cbs s .ackTimeout).1.websocket = .absent ∧
    (start c cbs s .ackTimeout).1.user_is_speaking = false ∧
    (start c cbs s .ackTimeout).1.receive_task = false ∧
    (start c cbs s .ackTimeout).1.watchdog_task = false ∧
    (start c cbs s .openFailed).2.2 = false ∧
    Output.errorCb "Failed to start: socket open failed" ∈ (start c cbs s .openFailed).2.1 := by
  unfold start connect_websocket disconnect_websocket
  have hws : ({s with websocket_url := some (build_websocket_url c)}).websocket
      = s.websocket := rfl
  rw [hws]
  simp only [if_neg hnot]
  cases hd : cbs.on_disconnected <;> simp [hcb]

/-- C5 witness at a concrete input. -/
theorem c5_start_timeout_fails_witness :
    ({} : CallbackSet).on_error = true ∧
    ({} : SessionState).websocket ≠ .opened ∧
    (start {} {} {} .ackTimeout).2.2 = false ∧
    Output.errorCb "Failed to start: Connection timeout" ∈ (start {} {} {} .ackTimeout).2.1 := by
  have h := c5_start_timeout_fails {} {} {} rfl (by decide)
  exact ⟨rfl, by decide, h.1, h.2.1⟩

/-- C6 counterexample: a mid-turn open session whose last-audio timestamp
is the monotonic reading 0.0 — more than 500 ms in the past at tick time
1 — gets no synthetic silence and no timestamp refresh, because the
watchdog condition tests the timestamp for Python truthiness and 0.0 is
falsy. -/
theorem c6_zero_timestamp_counterexample :
    zeroTimeWatchState.websocket = .opened ∧
    zeroTimeWatchState.user_is_speaking = true ∧
    zeroTimeWatchState.last_audio_time = some 0 ∧
    ((1 : ℚ) - 0 > 1/2) ∧
    watchdog_tick {} zeroTimeWatchState 1 1 = (zeroTimeWatchState, []) := by
  refine ⟨rfl, rfl, rfl, by norm_num, rfl⟩

/-- C6 amended: on a watchdog tick with the connection Open, the turn flag
true, and a set, nonzero last-audio timestamp more than 500 ms old, one
block of synthetic silence is written — int(sample_rate * 0.5) samples of
zeroed 16-bit mono PCM — and the timestamp is refreshed; when the turn
flag is false no tick ever sends silence or changes anything. -/
theorem c6_watchdog_silence (c : ServiceConfig) (s : SessionState)
    (now now2 t : ℚ) :
    (s.websocket = .opened → s.user_is_speaking = true →
     s.last_audio_time = some t → t ≠ 0 → now - t > 1/2 →
      watchdog_tick c s now now2 =
        ({s with last_audio_time := some now2},
         [.silenceFrame (silence_bytes c (1/2))])) ∧
    (s.user_is_speaking = false → watchdog_tick c s now now2 = (s, [])) := by
  constructor
  · intro hopen hsp hlast hnz helapsed
    unfold watchdog_tick watchdog_should_send send_silence
    simp [hopen, hsp, hlast, hnz]
    linarith
  · intro hsp
    unfold watchdog_tick watchdog_should_send
    simp [hsp]

/-- C6 witness at a concrete input: sample rate 16000 gives a 16000-byte
(500 ms) silence block. -/
theorem c6_watchdog_silence_witness :
    idleMidTurnState.websocket = .opened ∧
    idleMidTurnState.user_is_speaking = true ∧
    idleMidTurnState.last_audio_time = some 1 ∧
    ((1 : ℚ) ≠ 0) ∧ ((2 : ℚ) - 1 > 1/2) ∧
    silence_bytes {} (1/2) = 16000 ∧
    watchdog_tick {} idleMidTurnState 2 2 =
      ({idleMidTurnState with last_audio_time := some 2},
       [.silenceFrame (silence_bytes {} (1/2))]) := by
  refine ⟨rfl, rfl, rfl, by norm_num, by norm_num, ?_, ?_⟩
  · unfold silence_bytes
    norm_num
    rfl
  exact (c6_watchdog_silence {} idleMidTurnState 2 2 1).1 rfl rfl rfl
    (by norm_num) (by norm_num)

/-- C7: an inbound text frame that is not valid JSON, or whose JSON lacks
a type field (or is not an object), is skipped with no state change, no
callback and the loop continuing; in the scenario [invalid JSON, valid
StartOfTurn TurnInfo] only the second frame produces a callback. -/
theorem c7_malformed_frames_skipped (c : ServiceConfig) (cbs : CallbackSet)
    (s : SessionState) (hcb : cbs.on_start_of_turn = true) :
    (receive_step c cbs s (.textFrame none) = (s, [], true)) ∧
    (∀ v : JVal, v.get "type" = none →
      receive_step c cbs s (.textFrame (some v)) = (s, [], true)) ∧
    (receive_loop c cbs s [.textFrame none, .textFrame (some startOfTurnMsg)] =
      ({s with user_is_speaking := true}, [.startOfTurnCb (.str "hi")])) := by
  refine ⟨rfl, ?_, ?_⟩
  · intro v hv
    cases v with
    | obj fields =>
      unfold receive_step handle_message
      dsimp only
      rw [hv]
    | null => rfl
    | bool b => rfl
    | num q => rfl
    | str sx => rfl
    | arr elems => rfl
  · have h1 : receive_loop c cbs s [.textFrame none, .textFrame (some startOfTurnMsg)] =
        ({s with user_is_speaking := true},
         [] ++ ((if cbs.on_start_of_turn then [Output.startOfTurnCb (.str "hi")] else []) ++ [])) := rfl
    rw [h1, hcb]
    simp

/-- C7 witness at a concrete input. -/
theorem c7_malformed_frames_skipped_witness :
    ({} : CallbackSet).on_start_of_turn = true ∧
    receive_step {} {} {} (.textFrame none) = ({}, [], true) ∧
    receive_loop {} {} {} [.textFrame none, .textFrame (some startOfTurnMsg)] =
      ({({} : SessionState) with user_is_speaking := true}, [.startOfTurnCb (.str "hi")]) := by
  have h := c7_malformed_frames_skipped {} {} {} rfl
  exact ⟨rfl, h.1, h.2.2⟩

/-- C9: while the connection is Open, send_audio sets the last-audio
timestamp to the current monotonic reading whether or not the socket
write then fails; a failed write is reported through the error callback
and nothing but the timestamp changes; a successful write emits exactly
the audio frame. -/
theorem c9_send_audio_updates_timestamp (cbs : CallbackSet) (s : SessionState)
    (n : Nat) (now : ℚ) (sendOk : Bool) (hopen : s.websocket = .opened) :
    (send_audio cbs s n now sendOk).1 = {s with last_audio_time := some now} ∧
    (sendOk = false → (send_audio cbs s n now sendOk).2 =
      (if cbs.on_error then [.errorCb "Error sending audio"] else [])) ∧
    (sendOk = true → (send_audio cbs s n now sendOk).2 = [.audioFrame n]) := by
  unfold send_audio
  simp only [hopen]
  cases sendOk <;> simp

/-- C9 witness at a concrete input. -/
theorem c9_send_audio_updates_timestamp_witness :
    idleMidTurnState.websocket = .opened ∧
    (send_audio {} idleMidTurnState 320 7 false).1 =
      {idleMidTurnState with last_audio_time := some 7} ∧
    (send_audio {} idleMidTurnState 320 7 false).2 =
      (if ({} : CallbackSet).on_error then [.errorCb "Error sending audio"] else []) := by
  have h := c9_send_audio_updates_timestamp {} idleMidTurnState 320 7 false rfl
  exact ⟨rfl, h.1, h.2.1 rfl⟩

end NachosFlux
